import Mathlib

/-!
Verification of the GPS interpolation and photo/track matching core of
the juna_geotagger repository (src/geo_core.py), as a shallow embedding.

Timestamps are modelled as rationals (seconds); the Python dicts built by
parse_gpx_files become the TrackPoint structure, and interpolate_gps is
translated branch for branch, with Python's bisect_left modelled by its
documented leftmost-insertion-point semantics.
-/

/-- A GPS track point: UTC timestamp in seconds and coordinates.
Mirrors the dicts built by parse_gpx_files in src/geo_core.py. -/
structure TrackPoint where
  time : ℚ
  lat : ℚ
  lon : ℚ
  ele : ℚ
deriving DecidableEq, Repr

/-- A computed GPS position, as returned by interpolate_gps. -/
structure Position where
  lat : ℚ
  lon : ℚ
  ele : ℚ
deriving DecidableEq, Repr

/-- The position dict built from a track point, lines 256-257 etc. -/
def posOf (p : TrackPoint) : Position := ⟨p.lat, p.lon, p.ele⟩

/-- Default used only to make getD total; every getD access performed by
interpolate_gps is in range, matching the Python indexing. -/
def dfl : TrackPoint := ⟨0, 0, 0, 0⟩

/-- Model of Python bisect.bisect_left: the leftmost insertion index of x,
which on the sorted lists the code applies it to is the length of the
longest initial run of elements strictly below x. -/
def bisect_left (l : List ℚ) (x : ℚ) : Nat :=
  match l with
  | [] => 0
  | a :: rest => if a < x then bisect_left rest x + 1 else 0

/-- The insertion index computed at line 253: bisect over the list of
timestamps of the track points. -/
def tl_idx (tps : List TrackPoint) (q : ℚ) : Nat :=
  bisect_left (tps.map TrackPoint.time) q

/-- Lines 273-289 of interpolate_gps: the interior bracketing case,
operating on the two bracketing points. -/
def interp_bracket (before after : TrackPoint) (photo_time max_gap_seconds : ℚ) :
    Option Position :=
  if after.time - before.time > max_gap_seconds then none
  else if after.time - before.time = 0 then some (posOf before)
  else
    some
      { lat := before.lat + (after.lat - before.lat) *
          ((photo_time - before.time) / (after.time - before.time)),
        lon := before.lon + (after.lon - before.lon) *
          ((photo_time - before.time) / (after.time - before.time)),
        ele := before.ele + (after.ele - before.ele) *
          ((photo_time - before.time) / (after.time - before.time)) }

/-- interpolate_gps, src/geo_core.py lines 241-289. -/
def interpolate_gps (trackpoints : List TrackPoint) (photo_time max_gap_seconds : ℚ) :
    Option Position :=
  if trackpoints.isEmpty then none
  else
    let idx := tl_idx trackpoints photo_time
    if idx < trackpoints.length ∧ (trackpoints.getD idx dfl).time = photo_time then
      some (posOf (trackpoints.getD idx dfl))
    else if idx = 0 then
      if (trackpoints.getD 0 dfl).time - photo_time ≤ max_gap_seconds then
        some (posOf (trackpoints.getD 0 dfl))
      else none
    else if trackpoints.length ≤ idx then
      if photo_time - (trackpoints.getD (trackpoints.length - 1) dfl).time ≤ max_gap_seconds then
        some (posOf (trackpoints.getD (trackpoints.length - 1) dfl))
      else none
    else
      interp_bracket (trackpoints.getD (idx - 1) dfl) (trackpoints.getD idx dfl)
        photo_time max_gap_seconds

/-- The timeline invariant: non-decreasing timestamps. -/
def SortedTimeline (tps : List TrackPoint) : Prop :=
  tps.Pairwise (fun a b => a.time ≤ b.time)

/-- interp_bracket instrumented for division safety: identical to
interp_bracket except that reaching the ratio division with a divisor
that is not strictly positive is flagged as an error. -/
def interp_bracket_checked (before after : TrackPoint) (photo_time max_gap_seconds : ℚ) :
    Except Unit (Option Position) :=
  if after.time - before.time > max_gap_seconds then Except.ok none
  else if after.time - before.time = 0 then Except.ok (some (posOf before))
  else if 0 < after.time - before.time then
    Except.ok (some
      { lat := before.lat + (after.lat - before.lat) *
          ((photo_time - before.time) / (after.time - before.time)),
        lon := before.lon + (after.lon - before.lon) *
          ((photo_time - before.time) / (after.time - before.time)),
        ele := before.ele + (after.ele - before.ele) *
          ((photo_time - before.time) / (after.time - before.time)) })
  else Except.error ()

/-- interpolate_gps instrumented for division safety, mirroring the
branch structure of interpolate_gps with the interior case replaced by
interp_bracket_checked. -/
def interpolate_gps_checked (trackpoints : List TrackPoint) (photo_time max_gap_seconds : ℚ) :
    Except Unit (Option Position) :=
  if trackpoints.isEmpty then Except.ok none
  else
    let idx := tl_idx trackpoints photo_time
    if idx < trackpoints.length ∧ (trackpoints.getD idx dfl).time = photo_time then
      Except.ok (some (posOf (trackpoints.getD idx dfl)))
    else if idx = 0 then
      Except.ok
        (if (trackpoints.getD 0 dfl).time - photo_time ≤ max_gap_seconds then
          some (posOf (trackpoints.getD 0 dfl))
        else none)
    else if trackpoints.length ≤ idx then
      Except.ok
        (if photo_time - (trackpoints.getD (trackpoints.length - 1) dfl).time ≤ max_gap_seconds then
          some (posOf (trackpoints.getD (trackpoints.length - 1) dfl))
        else none)
    else
      interp_bracket_checked (trackpoints.getD (idx - 1) dfl) (trackpoints.getD idx dfl)
        photo_time max_gap_seconds

/-! ### Track Loader model (parse_gpx_files, lines 54-110) -/

/-- A point as delivered by the GPX library: optional timestamp (already
normalized to UTC seconds), coordinates, optional elevation. -/
structure RawPoint where
  time : Option ℚ
  latitude : ℚ
  longitude : ℚ
  elevation : Option ℚ
deriving DecidableEq, Repr

/-- A track segment of a GPX file. -/
structure GpxSegment where
  points : List RawPoint
deriving DecidableEq, Repr

/-- A track of a GPX file: optional declared name and its segments. -/
structure GpxTrack where
  name : Option String
  segments : List GpxSegment
deriving DecidableEq, Repr

/-- A parsed GPX file: tracks plus standalone waypoints. -/
structure GpxFile where
  tracks : List GpxTrack
  waypoints : List RawPoint
deriving DecidableEq, Repr

/-- Lines 78-91: a point without a timestamp is dropped, a missing
elevation defaults to 0. -/
def rawToTrackPoint (p : RawPoint) : Option TrackPoint :=
  match p.time with
  | none => none
  | some t => some ⟨t, p.latitude, p.longitude, p.elevation.getD 0⟩

/-- Lines 75-107: all track-segment points of a file in order, then its
waypoints. -/
def filePoints (f : GpxFile) : List TrackPoint :=
  (f.tracks.flatMap fun track =>
    track.segments.flatMap fun seg => seg.points.filterMap rawToTrackPoint)
    ++ f.waypoints.filterMap rawToTrackPoint

/-- The sort key comparison of line 109 (sort by the time field). -/
def timeLE (a b : TrackPoint) : Bool := a.time ≤ b.time

/-- The trackpoints list accumulated by lines 62-107, before the final
sort: files in input order (the caller passes them in lexicographic
filename order), a file that failed to parse (none) skipped entirely. -/
def collect_trackpoints (gpx_files : List (String × Option GpxFile)) : List TrackPoint :=
  (gpx_files.filterMap Prod.snd).flatMap filePoints

/-- parse_gpx_files, lines 54-110: collect, then stable-sort by
timestamp (Python list.sort is a stable sort). -/
def parse_gpx_files (gpx_files : List (String × Option GpxFile)) : List TrackPoint :=
  (collect_trackpoints gpx_files).mergeSort timeLE

/-! ### GeoJSON export model (get_gpx_track_geojson, lines 113-142) -/

/-- A GeoJSON LineString feature: properties.name plus the coordinate
list, each coordinate a (longitude, latitude) pair. -/
structure GeoFeature where
  name : String
  coordinates : List (ℚ × ℚ)
deriving DecidableEq, Repr

/-- A GeoJSON FeatureCollection. -/
structure FeatureCollection where
  features : List GeoFeature
deriving DecidableEq, Repr

/-- Python's `a or b` fallback on strings: an absent or empty name falls
back to the filename (line 134). -/
def pyNameOr (n : Option String) (fallback : String) : String :=
  match n with
  | some s => if s = "" then fallback else s
  | none => fallback

/-- Lines 127-129: the coordinate list of a segment, as [lon, lat]. -/
def segCoords (seg : GpxSegment) : List (ℚ × ℚ) :=
  seg.points.map fun p => (p.longitude, p.latitude)

/-- get_gpx_track_geojson, lines 113-142: per file (filename, parse
result in lexicographic filename order), per track, per segment a
feature, except that a segment with an empty coordinate list produces no
feature (line 130). -/
def get_gpx_track_geojson (gpx_files : List (String × Option GpxFile)) : FeatureCollection :=
  ⟨gpx_files.flatMap fun file =>
    match file.2 with
    | none => []
    | some gpx =>
      gpx.tracks.flatMap fun track =>
        track.segments.filterMap fun seg =>
          if segCoords seg = [] then none
          else some ⟨pyNameOr track.name file.1, segCoords seg⟩⟩

/-- The export as claim C9 words it: one feature per track segment of
every parseable file, with no exception for empty segments. Stated from
the claim, for comparison with get_gpx_track_geojson. -/
def get_gpx_track_geojson_claim (gpx_files : List (String × Option GpxFile)) :
    FeatureCollection :=
  ⟨gpx_files.flatMap fun file =>
    match file.2 with
    | none => []
    | some gpx =>
      gpx.tracks.flatMap fun track =>
        track.segments.map fun seg => ⟨pyNameOr track.name file.1, segCoords seg⟩⟩

/-! ### Timestamp Normalizer model (_parse_exiftool_datetime, lines 145-184)

Strings are modelled through their character lists; Python's str.split,
str.strip and int() and the datetime.strptime patterns used at line 154
are given explicit executable models. -/

/-- The whitespace characters stripped by Python str.strip. -/
def isSpaceChar (c : Char) : Bool :=
  c = ' ' ∨ c = '\t' ∨ c = '\n' ∨ c = '\r' ∨ c = '\x0b' ∨ c = '\x0c'

/-- Python str.split with a one-character separator: never returns an
empty list, and empty fields are kept. -/
def splitOnChar (sep : Char) : List Char → List (List Char)
  | [] => [[]]
  | c :: rest =>
    let r := splitOnChar sep rest
    if c = sep then [] :: r
    else
      match r with
      | [] => [[c]]
      | h :: t => (c :: h) :: t

/-- Python str.strip (both ends). -/
def stripChars (cs : List Char) : List Char :=
  ((cs.dropWhile isSpaceChar).reverse.dropWhile isSpaceChar).reverse

/-- The numeric value of an all-digit, non-empty character list. -/
def digitsToNat (cs : List Char) : Option ℕ :=
  if cs ≠ [] ∧ cs.all Char.isDigit then
    some (cs.foldl (fun n c => n * 10 + (c.toNat - 48)) 0)
  else none

/-- A strptime numeric field: digit-count bounds and value bounds. -/
def parseNum (lo hi minLen maxLen : ℕ) (cs : List Char) : Option ℕ :=
  if minLen ≤ cs.length ∧ cs.length ≤ maxLen then
    match digitsToNat cs with
    | some n => if lo ≤ n ∧ n ≤ hi then some n else none
    | none => none
  else none

def isLeapYear (y : ℕ) : Bool := (y % 4 = 0 ∧ y % 100 ≠ 0) ∨ y % 400 = 0

def daysInMonth (y m : ℕ) : ℕ :=
  if m = 2 then (if isLeapYear y then 29 else 28)
  else if m = 4 ∨ m = 6 ∨ m = 9 ∨ m = 11 then 30
  else 31

/-- A Python datetime as built by strptime: calendar fields plus the
tzinfo offset in minutes (none when naive). -/
structure PyDateTime where
  year : ℕ
  month : ℕ
  day : ℕ
  hour : ℕ
  minute : ℕ
  second : ℕ
  tzOffsetMinutes : Option ℤ
deriving DecidableEq, Repr

/-- The %H:%M:%S part: hour 0-23, minute and second 0-59 (a leap-second
match is rejected by the datetime constructor, hence a parse failure). -/
def parseHMS (cs : List Char) : Option (ℕ × ℕ × ℕ) :=
  match splitOnChar ':' cs with
  | [hs, mis, ss] =>
    match parseNum 0 23 1 2 hs, parseNum 0 59 1 2 mis, parseNum 0 59 1 2 ss with
    | some h, some mi, some s => some (h, mi, s)
    | _, _, _ => none
  | _ => none

/-- The %Y/%m/%d part with the given separator: 4-digit year (the
datetime constructor requires year at least 1), month 1-12, day valid
for the month. -/
def parseYMD (dateSep : Char) (cs : List Char) : Option (ℕ × ℕ × ℕ) :=
  match splitOnChar dateSep cs with
  | [ys, mos, ds] =>
    match parseNum 1 9999 4 4 ys, parseNum 1 12 1 2 mos, parseNum 1 31 1 2 ds with
    | some y, some mo, some d =>
      if 1 ≤ d ∧ d ≤ daysInMonth y mo then some (y, mo, d) else none
    | _, _, _ => none
  | _ => none

/-- strptime against a naive date-time pattern, date separator given
(the patterns of line 154 without %z). -/
def strptime_ymd_hms (dateSep : Char) (cs : List Char) : Option PyDateTime :=
  match splitOnChar ' ' cs with
  | [dpart, tpart] =>
    match parseYMD dateSep dpart, parseHMS tpart with
    | some (y, mo, d), some (h, mi, s) => some ⟨y, mo, d, h, mi, s, none⟩
    | _, _ => none
  | _ => none

/-- Split the time-of-day part at the start of a trailing UTC-offset
field (sign character or Z). -/
def splitAtTz : List Char → List Char → Option (List Char × List Char)
  | [], _ => none
  | c :: rest, acc =>
    if c = '+' ∨ c = '-' ∨ c = 'Z' then some (acc.reverse, c :: rest)
    else splitAtTz rest (c :: acc)

/-- The %z field: Z, or a sign followed by HHMM or HH:MM, bounded below
24 hours as the timezone constructor requires. -/
def parseTzOffset (cs : List Char) : Option ℤ :=
  match cs with
  | ['Z'] => some 0
  | sign :: rest =>
    if sign = '+' ∨ sign = '-' then
      let sgn : ℤ := if sign = '+' then 1 else -1
      let hm : Option (ℕ × ℕ) :=
        match rest with
        | [h1, h2, ':', m1, m2] =>
          match digitsToNat [h1, h2], digitsToNat [m1, m2] with
          | some hh, some mm => some (hh, mm)
          | _, _ => none
        | [h1, h2, m1, m2] =>
          match digitsToNat [h1, h2], digitsToNat [m1, m2] with
          | some hh, some mm => some (hh, mm)
          | _, _ => none
        | _ => none
      match hm with
      | some (hh, mm) =>
        if hh * 60 + mm < 1440 then some (sgn * ((hh * 60 + mm : ℕ) : ℤ)) else none
      | none => none
    else none
  | [] => none

/-- strptime against the %z-bearing pattern of line 154. -/
def strptime_ymd_hms_z (dateSep : Char) (cs : List Char) : Option PyDateTime :=
  match splitOnChar ' ' cs with
  | [dpart, tpart] =>
    match splitAtTz tpart [] with
    | some (hms, tz) =>
      match parseYMD dateSep dpart, parseHMS hms, parseTzOffset tz with
      | some (y, mo, d), some (h, mi, s), some off => some ⟨y, mo, d, h, mi, s, some off⟩
      | _, _, _ => none
    | none => none
  | _ => none

/-- The exiftool JSON fields read at lines 147 and 151. -/
structure ExifInfo where
  dateTimeOriginal : Option String
  createDate : Option String
  offsetTimeOriginal : Option String
  offsetTime : Option String
deriving DecidableEq, Repr

/-- Python's `a or b` on optional strings: an absent or empty first
operand selects the second. -/
def pyOrStr (a b : Option String) : Option String :=
  match a with
  | some s => if s = "" then b else some s
  | none => b

/-- Python int() on a string: surrounding whitespace, optional sign,
digits. -/
def pyIntChars (cs : List Char) : Option ℤ :=
  match stripChars cs with
  | '+' :: rest => (digitsToNat rest).map (fun n => (n : ℤ))
  | '-' :: rest => (digitsToNat rest).map (fun n => -(n : ℤ))
  | t => (digitsToNat t).map (fun n => (n : ℤ))

/-- Lines 168-178: parse the OffsetTime string. The sign is read off the
first character (anything but '+' counts as minus) which is then dropped,
the rest splits on ':' into hours and optional minutes, and the offset
must lie strictly within a day; any failure falls back (none). -/
def parsePhotoOffset (offStr : String) : Option ℤ :=
  match stripChars offStr.toList with
  | [] => none
  | c0 :: rest =>
    let sgn : ℤ := if c0 = '+' then 1 else -1
    match splitOnChar ':' rest with
    | [] => none
    | hs :: tailParts =>
      match pyIntChars hs with
      | none => none
      | some hours =>
        let mins : Option ℤ :=
          match tailParts with
          | [] => some 0
          | ms :: _ => pyIntChars ms
        match mins with
        | none => none
        | some minutes =>
          let total := sgn * (hours * 60 + minutes)
          if -1440 < total ∧ total < 1440 then some total else none

/-- Days since 1970-01-01 of a Gregorian date (civil-from-days inverse,
Hinnant's algorithm). -/
def daysFromCivil (y m d : ℤ) : ℤ :=
  let yAdj := if m ≤ 2 then y - 1 else y
  let era := (if 0 ≤ yAdj then yAdj else yAdj - 399) / 400
  let yoe := yAdj - era * 400
  let mp := (m + 9) % 12
  let doy := (153 * mp + 2) / 5 + d - 1
  let doe := yoe * 365 + yoe / 4 - yoe / 100 + doy
  era * 146097 + doe - 719468

/-- datetime.astimezone(timezone.utc).timestamp in whole seconds. -/
def toUtcEpochSeconds (dt : PyDateTime) : ℤ :=
  daysFromCivil (dt.year : ℤ) (dt.month : ℤ) (dt.day : ℤ) * 86400 +
    (dt.hour : ℤ) * 3600 + (dt.minute : ℤ) * 60 + (dt.second : ℤ) -
    (dt.tzOffsetMinutes.getD 0) * 60

/-- _parse_exiftool_datetime, lines 145-184. The ambient local timezone
used by the naive-timestamp astimezone() fallback of line 181 enters as
the localOffsetMinutes parameter. -/
def _parse_exiftool_datetime (info : ExifInfo) (localOffsetMinutes : ℤ) : Option ℤ :=
  match pyOrStr info.dateTimeOriginal info.createDate with
  | none => none
  | some dateStr =>
    if dateStr = "" ∨ dateStr = "0000:00:00 00:00:00" then none
    else
      let cs := stripChars dateStr.toList
      let firstPass :=
        match strptime_ymd_hms ':' cs with
        | some dt => some dt
        | none =>
          match strptime_ymd_hms '-' cs with
          | some dt => some dt
          | none => strptime_ymd_hms_z ':' cs
      let parsed :=
        match firstPass with
        | some dt => some dt
        | none => strptime_ymd_hms ':' ((splitOnChar '.' cs).headD [])
      match parsed with
      | none => none
      | some dt =>
        let dtz :=
          match dt.tzOffsetMinutes with
          | some _ => dt
          | none =>
            match pyOrStr info.offsetTimeOriginal info.offsetTime with
            | none => { dt with tzOffsetMinutes := some localOffsetMinutes }
            | some offStr =>
              if offStr = "" then { dt with tzOffsetMinutes := some localOffsetMinutes }
              else
                match parsePhotoOffset offStr with
                | some off => { dt with tzOffsetMinutes := some off }
                | none => { dt with tzOffsetMinutes := some localOffsetMinutes }
        some (toUtcEpochSeconds dtz)

/-! ### Matching Orchestrator model (async_scan_photos, lines 426-470) -/

/-- The per-photo outcome category set by lines 446-463. -/
inductive PhotoStatus
  | has_gps
  | no_time
  | matched
  | no_match
deriving DecidableEq, Repr

/-- The metadata of one photo as collected before matching: existing-GPS
flag and optional capture instant (UTC seconds). -/
structure PhotoMeta where
  filename : String
  has_gps : Bool
  time : Option ℚ
deriving DecidableEq, Repr

/-- The classification outcome for one photo: status plus the matched
position, present exactly in the matched case. -/
structure PhotoScan where
  status : PhotoStatus
  matched : Option Position
deriving DecidableEq, Repr

/-- Default photo used only to make getD total. -/
def pmdfl : PhotoMeta := ⟨"", false, none⟩

/-- Default scan result used only to make getD total. -/
def psdfl : PhotoScan := ⟨PhotoStatus.no_match, none⟩

/-- Lines 446-463: the per-photo decision chain of async_scan_photos. -/
def classify_photo (trackpoints : List TrackPoint) (max_gap : ℚ) (photo : PhotoMeta) :
    PhotoScan :=
  if photo.has_gps then ⟨PhotoStatus.has_gps, none⟩
  else
    match photo.time with
    | none => ⟨PhotoStatus.no_time, none⟩
    | some t =>
      match interpolate_gps trackpoints t max_gap with
      | some gps => ⟨PhotoStatus.matched, some gps⟩
      | none => ⟨PhotoStatus.no_match, none⟩

/-- The matching loop of async_scan_photos lines 446-463, applied to the
whole batch. -/
def async_scan_photos (trackpoints : List TrackPoint) (max_gap : ℚ)
    (photos : List PhotoMeta) : List PhotoScan :=
  photos.map (classify_photo trackpoints max_gap)

/-! ### Basic facts about the bisect model -/

theorem bisect_le_length (l : List ℚ) (x : ℚ) : bisect_left l x ≤ l.length := by
  induction l with
  | nil => simp [bisect_left]
  | cons a rest ih =>
    by_cases h : a < x
    · simp only [bisect_left, if_pos h, List.length_cons]
      omega
    · simp [bisect_left, h]

theorem bisect_lt_of_lt (l : List ℚ) (x : ℚ) (j : Nat) (hj : j < bisect_left l x) :
    l.getD j 0 < x := by
  induction l generalizing j with
  | nil => simp [bisect_left] at hj
  | cons a rest ih =>
    by_cases h : a < x
    · cases j with
      | zero => simpa using h
      | succ j =>
        simp only [bisect_left, if_pos h] at hj
        exact ih j (by omega)
    · simp [bisect_left, h] at hj

theorem bisect_not_lt_self (l : List ℚ) (x : ℚ) (h : bisect_left l x < l.length) :
    ¬ l.getD (bisect_left l x) 0 < x := by
  induction l with
  | nil => simp [bisect_left] at h
  | cons a rest ih =>
    by_cases ha : a < x
    · simp only [bisect_left, if_pos ha] at h ⊢
      simpa using ih (by simpa using Nat.lt_of_succ_lt_succ h)
    · simp [bisect_left, ha]

theorem bisect_le_of_not_lt (l : List ℚ) (x : ℚ) (i : Nat)
    (h : ¬ l.getD i 0 < x) : bisect_left l x ≤ i := by
  by_contra hc
  exact h (bisect_lt_of_lt l x i (by omega))

theorem bisect_eq (l : List ℚ) (x : ℚ) (k : Nat) (hk : k ≤ l.length)
    (hlt : ∀ i, i < k → l.getD i 0 < x)
    (hge : k < l.length → ¬ l.getD k 0 < x) :
    bisect_left l x = k := by
  induction l generalizing k with
  | nil =>
    simp only [List.length_nil, Nat.le_zero] at hk
    simp [bisect_left, hk]
  | cons a rest ih =>
    cases k with
    | zero =>
      have h0 : ¬ a < x := by simpa using hge (by simp)
      simp [bisect_left, h0]
    | succ k =>
      have ha : a < x := by simpa using hlt 0 (Nat.succ_pos k)
      simp only [bisect_left, if_pos ha, Nat.succ_eq_add_one, Nat.add_right_cancel_iff]
      refine ih k (by simp only [List.length_cons] at hk; omega)
        (fun i hi => ?_) (fun hlen => ?_)
      · simpa using hlt (i + 1) (by omega)
      · simpa using hge (by simpa using Nat.succ_lt_succ hlen)

/-! ### Transfer to the track-point level -/

theorem getD_eq_getElem (l : List TrackPoint) (i : Nat) (h : i < l.length) :
    l.getD i dfl = l[i] := by
  simp [List.getD_eq_getElem?_getD, List.getElem?_eq_getElem, h]

theorem map_time_getD (tps : List TrackPoint) (i : Nat) (h : i < tps.length) :
    (tps.map TrackPoint.time).getD i 0 = (tps.getD i dfl).time := by
  simp [List.getD_eq_getElem?_getD, List.getElem?_map, List.getElem?_eq_getElem, h,
    getD_eq_getElem tps i h]

theorem tl_idx_le_length (tps : List TrackPoint) (q : ℚ) : tl_idx tps q ≤ tps.length := by
  simpa using bisect_le_length (tps.map TrackPoint.time) q

theorem tl_idx_lt_of_lt (tps : List TrackPoint) (q : ℚ) (j : Nat) (hj : j < tl_idx tps q) :
    (tps.getD j dfl).time < q := by
  have hlen : j < tps.length := by
    have := tl_idx_le_length tps q
    omega
  have := bisect_lt_of_lt (tps.map TrackPoint.time) q j hj
  rwa [map_time_getD tps j hlen] at this

theorem tl_idx_not_lt_self (tps : List TrackPoint) (q : ℚ) (h : tl_idx tps q < tps.length) :
    ¬ (tps.getD (tl_idx tps q) dfl).time < q := by
  have h2 : ¬ (tps.map TrackPoint.time).getD (tl_idx tps q) 0 < q :=
    bisect_not_lt_self (tps.map TrackPoint.time) q (by simpa using h)
  rwa [map_time_getD tps _ h] at h2

theorem tl_idx_le_of_not_lt (tps : List TrackPoint) (q : ℚ) (i : Nat) (hi : i < tps.length)
    (h : ¬ (tps.getD i dfl).time < q) : tl_idx tps q ≤ i := by
  refine bisect_le_of_not_lt (tps.map TrackPoint.time) q i ?_
  rwa [map_time_getD tps i hi]

theorem tl_idx_eq (tps : List TrackPoint) (q : ℚ) (k : Nat) (hk : k ≤ tps.length)
    (hlt : ∀ i, i < k → (tps.getD i dfl).time < q)
    (hge : k < tps.length → ¬ (tps.getD k dfl).time < q) :
    tl_idx tps q = k := by
  refine bisect_eq (tps.map TrackPoint.time) q k (by simpa using hk)
    (fun i hi => ?_) (fun hlen => ?_)
  · have hilen : i < tps.length := by omega
    rw [map_time_getD tps i hilen]
    exact hlt i hi
  · have hklen : k < tps.length := by simpa using hlen
    rw [map_time_getD tps k hklen]
    exact hge hklen

theorem sorted_getD_mono (tps : List TrackPoint) (hs : SortedTimeline tps)
    (i j : Nat) (hij : i ≤ j) (hj : j < tps.length) :
    (tps.getD i dfl).time ≤ (tps.getD j dfl).time := by
  rcases Nat.eq_or_lt_of_le hij with rfl | hlt
  · exact le_refl _
  · have hi : i < tps.length := by omega
    rw [getD_eq_getElem tps i hi, getD_eq_getElem tps j hj]
    exact List.pairwise_iff_getElem.mp hs i j hi hj hlt

example : bisect_left [1, 3, 5] 3 = 1 := by norm_num [bisect_left]
example : bisect_left [1, 3, 3, 5] 3 = 1 := by norm_num [bisect_left]
example : bisect_left [1, 3, 5] 9 = 3 := by norm_num [bisect_left]
example : interpolate_gps [⟨0, 0, 0, 0⟩, ⟨1000, 2, 4, 6⟩] 250 3600 =
    some ⟨1/2, 1, 3/2⟩ := by
  norm_num [interpolate_gps, tl_idx, bisect_left, interp_bracket, posOf, dfl]
example : interpolate_gps [⟨0, 0, 0, 0⟩, ⟨10000, 2, 4, 6⟩] 250 3600 = none := by
  norm_num [interpolate_gps, tl_idx, bisect_left, interp_bracket, posOf, dfl]
example : interpolate_gps [⟨0, 0, 0, 0⟩, ⟨1000, 2, 4, 6⟩] 1000 3600 =
    some ⟨2, 4, 6⟩ := by
  norm_num [interpolate_gps, tl_idx, bisect_left, interp_bracket, posOf, dfl]

/-! ### Branch-selection lemmas for interpolate_gps -/

theorem interpolate_gps_ne (tps : List TrackPoint) (q g : ℚ) (hne : tps ≠ []) :
    interpolate_gps tps q g =
      (if tl_idx tps q < tps.length ∧ (tps.getD (tl_idx tps q) dfl).time = q then
        some (posOf (tps.getD (tl_idx tps q) dfl))
      else if tl_idx tps q = 0 then
        if (tps.getD 0 dfl).time - q ≤ g then some (posOf (tps.getD 0 dfl)) else none
      else if tps.length ≤ tl_idx tps q then
        if q - (tps.getD (tps.length - 1) dfl).time ≤ g then
          some (posOf (tps.getD (tps.length - 1) dfl))
        else none
      else
        interp_bracket (tps.getD (tl_idx tps q - 1) dfl) (tps.getD (tl_idx tps q) dfl) q g) := by
  have hie : tps.isEmpty = false := by
    cases tps with
    | nil => exact absurd rfl hne
    | cons a l => rfl
  unfold interpolate_gps
  rw [if_neg (show ¬ tps.isEmpty = true by simp [hie])]

theorem interpolate_gps_checked_ne (tps : List TrackPoint) (q g : ℚ) (hne : tps ≠ []) :
    interpolate_gps_checked tps q g =
      (if tl_idx tps q < tps.length ∧ (tps.getD (tl_idx tps q) dfl).time = q then
        Except.ok (some (posOf (tps.getD (tl_idx tps q) dfl)))
      else if tl_idx tps q = 0 then
        Except.ok
          (if (tps.getD 0 dfl).time - q ≤ g then some (posOf (tps.getD 0 dfl)) else none)
      else if tps.length ≤ tl_idx tps q then
        Except.ok
          (if q - (tps.getD (tps.length - 1) dfl).time ≤ g then
            some (posOf (tps.getD (tps.length - 1) dfl))
          else none)
      else
        interp_bracket_checked (tps.getD (tl_idx tps q - 1) dfl) (tps.getD (tl_idx tps q) dfl)
          q g) := by
  have hie : tps.isEmpty = false := by
    cases tps with
    | nil => exact absurd rfl hne
    | cons a l => rfl
  unfold interpolate_gps_checked
  rw [if_neg (show ¬ tps.isEmpty = true by simp [hie])]

theorem interpolate_gps_exact (tps : List TrackPoint) (q g : ℚ)
    (h1 : tl_idx tps q < tps.length) (h2 : (tps.getD (tl_idx tps q) dfl).time = q) :
    interpolate_gps tps q g = some (posOf (tps.getD (tl_idx tps q) dfl)) := by
  have hne : tps ≠ [] := by
    intro h
    subst h
    simp [tl_idx, bisect_left] at h1
  rw [interpolate_gps_ne tps q g hne, if_pos ⟨h1, h2⟩]

theorem interpolate_gps_interior (tps : List TrackPoint) (q g : ℚ) (hs : SortedTimeline tps)
    (j : Nat) (hj : j + 1 < tps.length)
    (hb : (tps.getD j dfl).time < q) (ha : q < (tps.getD (j + 1) dfl).time) :
    interpolate_gps tps q g =
      interp_bracket (tps.getD j dfl) (tps.getD (j + 1) dfl) q g := by
  have hidx : tl_idx tps q = j + 1 := by
    refine tl_idx_eq tps q (j + 1) (by omega) (fun i hi => ?_) (fun _ => ?_)
    · exact lt_of_le_of_lt (sorted_getD_mono tps hs i j (by omega) (by omega)) hb
    · exact not_lt.mpr (le_of_lt ha)
  have hne : tps ≠ [] := by
    intro h
    subst h
    simp at hj
  have hc1 : ¬ (j + 1 < tps.length ∧ (tps.getD (j + 1) dfl).time = q) := by
    rintro ⟨-, h2⟩
    rw [h2] at ha
    exact lt_irrefl q ha
  rw [interpolate_gps_ne tps q g hne, hidx, if_neg hc1,
    if_neg (Nat.succ_ne_zero j), if_neg (not_le.mpr hj)]
  simp only [Nat.add_sub_cancel]

theorem interpolate_gps_front (tps : List TrackPoint) (q g : ℚ) (hne : tps ≠ [])
    (h : q < (tps.getD 0 dfl).time) :
    interpolate_gps tps q g =
      (if (tps.getD 0 dfl).time - q ≤ g then some (posOf (tps.getD 0 dfl)) else none) := by
  have hidx : tl_idx tps q = 0 :=
    tl_idx_eq tps q 0 (Nat.zero_le _) (fun i hi => absurd hi (Nat.not_lt_zero i))
      (fun _ => not_lt.mpr (le_of_lt h))
  have hc1 : ¬ (0 < tps.length ∧ (tps.getD 0 dfl).time = q) := by
    rintro ⟨-, h2⟩
    rw [h2] at h
    exact lt_irrefl q h
  rw [interpolate_gps_ne tps q g hne, hidx, if_neg hc1, if_pos rfl]

theorem interpolate_gps_back (tps : List TrackPoint) (q g : ℚ) (hs : SortedTimeline tps)
    (hne : tps ≠ []) (h : (tps.getD (tps.length - 1) dfl).time < q) :
    interpolate_gps tps q g =
      (if q - (tps.getD (tps.length - 1) dfl).time ≤ g then
        some (posOf (tps.getD (tps.length - 1) dfl))
      else none) := by
  have hlen : 0 < tps.length := List.length_pos.mpr hne
  have hidx : tl_idx tps q = tps.length :=
    tl_idx_eq tps q tps.length le_rfl
      (fun i hi =>
        lt_of_le_of_lt (sorted_getD_mono tps hs i (tps.length - 1) (by omega) (by omega)) h)
      (fun hh => absurd hh (lt_irrefl _))
  have hc1 : ¬ (tps.length < tps.length ∧ (tps.getD tps.length dfl).time = q) := by
    rintro ⟨h1, -⟩
    exact lt_irrefl _ h1
  rw [interpolate_gps_ne tps q g hne, hidx, if_neg hc1, if_neg (by omega), if_pos le_rfl]

/-! ### Claim theorems for the Interpolation Engine -/

/-- Claim C1: for a sorted timeline and a query strictly inside an adjacent
bracket of width at most maxGapSeconds, interpolate_gps returns the
componentwise linear interpolation between the bracketing points, and the
elapsed-time ratio lies in the closed unit interval. -/
theorem claim_c1 (tps : List TrackPoint) (q g : ℚ) (hs : SortedTimeline tps) (j : Nat)
    (hj : j + 1 < tps.length)
    (hb : (tps.getD j dfl).time < q) (ha : q < (tps.getD (j + 1) dfl).time)
    (hgap : (tps.getD (j + 1) dfl).time - (tps.getD j dfl).time ≤ g) :
    interpolate_gps tps q g =
      some
        { lat := (tps.getD j dfl).lat + ((tps.getD (j + 1) dfl).lat - (tps.getD j dfl).lat) *
            ((q - (tps.getD j dfl).time) /
              ((tps.getD (j + 1) dfl).time - (tps.getD j dfl).time)),
          lon := (tps.getD j dfl).lon + ((tps.getD (j + 1) dfl).lon - (tps.getD j dfl).lon) *
            ((q - (tps.getD j dfl).time) /
              ((tps.getD (j + 1) dfl).time - (tps.getD j dfl).time)),
          ele := (tps.getD j dfl).ele + ((tps.getD (j + 1) dfl).ele - (tps.getD j dfl).ele) *
            ((q - (tps.getD j dfl).time) /
              ((tps.getD (j + 1) dfl).time - (tps.getD j dfl).time)) } ∧
    0 ≤ (q - (tps.getD j dfl).time) /
        ((tps.getD (j + 1) dfl).time - (tps.getD j dfl).time) ∧
    (q - (tps.getD j dfl).time) /
        ((tps.getD (j + 1) dfl).time - (tps.getD j dfl).time) ≤ 1 := by
  have hpos : 0 < (tps.getD (j + 1) dfl).time - (tps.getD j dfl).time := by linarith
  refine ⟨?_, ?_, ?_⟩
  · rw [interpolate_gps_interior tps q g hs j hj hb ha]
    unfold interp_bracket
    rw [if_neg (not_lt.mpr hgap), if_neg (ne_of_gt hpos)]
  · exact div_nonneg (by linarith) (le_of_lt hpos)
  · rw [div_le_one hpos]
    linarith

/-- Claim C2: for a sorted timeline and a query strictly inside an adjacent
bracket whose width exceeds maxGapSeconds, interpolate_gps returns none,
regardless of where the query sits in the bracket. -/
theorem claim_c2 (tps : List TrackPoint) (q g : ℚ) (hs : SortedTimeline tps) (j : Nat)
    (hj : j + 1 < tps.length)
    (hb : (tps.getD j dfl).time < q) (ha : q < (tps.getD (j + 1) dfl).time)
    (hgap : g < (tps.getD (j + 1) dfl).time - (tps.getD j dfl).time) :
    interpolate_gps tps q g = none := by
  rw [interpolate_gps_interior tps q g hs j hj hb ha]
  unfold interp_bracket
  rw [if_pos hgap]

/-- Claim C3: for a sorted timeline and a query equal to the timestamp of
some point, interpolate_gps returns the unmodified position of a point
carrying exactly that timestamp. -/
theorem claim_c3 (tps : List TrackPoint) (q g : ℚ) (hs : SortedTimeline tps)
    (i : Nat) (hi : i < tps.length) (hq : (tps.getD i dfl).time = q) :
    ∃ j, j < tps.length ∧ (tps.getD j dfl).time = q ∧
      interpolate_gps tps q g = some (posOf (tps.getD j dfl)) := by
  have hk1 : tl_idx tps q ≤ i :=
    tl_idx_le_of_not_lt tps q i hi (by rw [hq]; exact lt_irrefl q)
  have hklen : tl_idx tps q < tps.length := lt_of_le_of_lt hk1 hi
  have hle : (tps.getD (tl_idx tps q) dfl).time ≤ q := by
    calc (tps.getD (tl_idx tps q) dfl).time ≤ (tps.getD i dfl).time :=
          sorted_getD_mono tps hs _ i hk1 hi
      _ = q := hq
  have heq : (tps.getD (tl_idx tps q) dfl).time = q :=
    le_antisymm hle (not_lt.mp (tl_idx_not_lt_self tps q hklen))
  exact ⟨tl_idx tps q, hklen, heq, interpolate_gps_exact tps q g hklen heq⟩

/-- Claim C10: with several points sharing the query timestamp, the point
returned is the leftmost one in timeline order. -/
theorem claim_c10 (tps : List TrackPoint) (q g : ℚ) (hs : SortedTimeline tps)
    (k : Nat) (hk : k < tps.length) (hq : (tps.getD k dfl).time = q)
    (_hdup : k + 1 < tps.length ∧ (tps.getD (k + 1) dfl).time = q)
    (hfirst : ∀ i, i < k → (tps.getD i dfl).time ≠ q) :
    interpolate_gps tps q g = some (posOf (tps.getD k dfl)) := by
  have hidx : tl_idx tps q = k := by
    refine tl_idx_eq tps q k (le_of_lt hk) (fun i hi => ?_) (fun _ => ?_)
    · have hle := sorted_getD_mono tps hs i k (le_of_lt hi) hk
      rw [hq] at hle
      exact lt_of_le_of_ne hle (hfirst i hi)
    · rw [hq]
      exact lt_irrefl q
  have h := interpolate_gps_exact tps q g (by rw [hidx]; exact hk) (by rw [hidx]; exact hq)
  rwa [hidx] at h

/-- Claim C4: for a query strictly before the first point the result is
none exactly when the gap to the first point exceeds maxGapSeconds and is
otherwise the first point's position; symmetrically after the last point. -/
theorem claim_c4 (tps : List TrackPoint) (q g : ℚ) (hs : SortedTimeline tps)
    (hne : tps ≠ []) :
    (q < (tps.getD 0 dfl).time →
      ((interpolate_gps tps q g = none ↔ g < (tps.getD 0 dfl).time - q) ∧
        ((tps.getD 0 dfl).time - q ≤ g →
          interpolate_gps tps q g = some (posOf (tps.getD 0 dfl))))) ∧
    ((tps.getD (tps.length - 1) dfl).time < q →
      ((interpolate_gps tps q g = none ↔ g < q - (tps.getD (tps.length - 1) dfl).time) ∧
        (q - (tps.getD (tps.length - 1) dfl).time ≤ g →
          interpolate_gps tps q g = some (posOf (tps.getD (tps.length - 1) dfl))))) := by
  constructor
  · intro h
    rw [interpolate_gps_front tps q g hne h]
    refine ⟨?_, fun hle => if_pos hle⟩
    rcases le_or_lt ((tps.getD 0 dfl).time - q) g with hc | hc
    · rw [if_pos hc]
      exact ⟨fun h2 => absurd h2 (Option.some_ne_none _), fun h2 => absurd h2 (not_lt.mpr hc)⟩
    · rw [if_neg (not_le.mpr hc)]
      exact iff_of_true rfl hc
  · intro h
    rw [interpolate_gps_back tps q g hs hne h]
    refine ⟨?_, fun hle => if_pos hle⟩
    rcases le_or_lt (q - (tps.getD (tps.length - 1) dfl).time) g with hc | hc
    · rw [if_pos hc]
      exact ⟨fun h2 => absurd h2 (Option.some_ne_none _), fun h2 => absurd h2 (not_lt.mpr hc)⟩
    · rw [if_neg (not_le.mpr hc)]
      exact iff_of_true rfl hc

theorem interp_bracket_checked_ok (before after : TrackPoint) (q g : ℚ)
    (hpos : 0 < after.time - before.time) :
    interp_bracket_checked before after q g = Except.ok (interp_bracket before after q g) := by
  unfold interp_bracket_checked interp_bracket
  by_cases h1 : after.time - before.time > g
  · rw [if_pos h1, if_pos h1]
  · rw [if_neg h1, if_neg h1, if_neg (ne_of_gt hpos), if_neg (ne_of_gt hpos), if_pos hpos]

/-- Claim C7: a zero-width interior bracket surviving the gap test returns
the earlier point's position unmodified, and on sorted timelines the ratio
division is only ever performed with a strictly positive divisor. -/
theorem claim_c7 (before after : TrackPoint) (q g : ℚ) (tps : List TrackPoint)
    (qt gt : ℚ) (hzw : before.time = after.time) (hg : 0 ≤ g)
    (hs : SortedTimeline tps) :
    interp_bracket before after q g = some (posOf before) ∧
    interpolate_gps_checked tps qt gt = Except.ok (interpolate_gps tps qt gt) := by
  constructor
  · have h0 : after.time - before.time = 0 := by rw [hzw, sub_self]
    unfold interp_bracket
    rw [h0, if_neg (not_lt.mpr hg), if_pos rfl]
  · clear hzw hg
    by_cases hne : tps = []
    · subst hne
      rfl
    · rw [interpolate_gps_ne tps qt gt hne, interpolate_gps_checked_ne tps qt gt hne]
      by_cases h1 : tl_idx tps qt < tps.length ∧ (tps.getD (tl_idx tps qt) dfl).time = qt
      · rw [if_pos h1, if_pos h1]
      · rw [if_neg h1, if_neg h1]
        by_cases h2 : tl_idx tps qt = 0
        · rw [if_pos h2, if_pos h2]
        · rw [if_neg h2, if_neg h2]
          by_cases h3 : tps.length ≤ tl_idx tps qt
          · rw [if_pos h3, if_pos h3]
          · rw [if_neg h3, if_neg h3]
            apply interp_bracket_checked_ok
            have hklen : tl_idx tps qt < tps.length := by omega
            have hlt : (tps.getD (tl_idx tps qt - 1) dfl).time < qt :=
              tl_idx_lt_of_lt tps qt (tl_idx tps qt - 1) (by omega)
            have hge : ¬ (tps.getD (tl_idx tps qt) dfl).time < qt :=
              tl_idx_not_lt_self tps qt hklen
            have hneq : (tps.getD (tl_idx tps qt) dfl).time ≠ qt := fun he => h1 ⟨hklen, he⟩
            have hqlt : qt < (tps.getD (tl_idx tps qt) dfl).time :=
              lt_of_le_of_ne (not_lt.mp hge) (Ne.symm hneq)
            linarith

/-! ### Witnesses on concrete timelines -/

theorem claim_c1_witness :
    interpolate_gps [⟨0, 0, 0, 0⟩, ⟨1000, 2, 4, 6⟩] 250 3600 = some ⟨1/2, 1, 3/2⟩ := by
  have h := claim_c1 [⟨0, 0, 0, 0⟩, ⟨1000, 2, 4, 6⟩] 250 3600
    (by norm_num [SortedTimeline, List.pairwise_cons]) 0 (by norm_num)
    (by norm_num) (by norm_num) (by norm_num)
  rw [h.1]
  norm_num [dfl]

theorem claim_c2_witness :
    interpolate_gps [⟨0, 0, 0, 0⟩, ⟨1000, 2, 4, 6⟩] 250 100 = none :=
  claim_c2 [⟨0, 0, 0, 0⟩, ⟨1000, 2, 4, 6⟩] 250 100
    (by norm_num [SortedTimeline, List.pairwise_cons]) 0 (by norm_num)
    (by norm_num) (by norm_num) (by norm_num)

theorem claim_c3_witness :
    (interpolate_gps [⟨0, 0, 0, 0⟩, ⟨1000, 2, 4, 6⟩] 1000 3600).isSome = true := by
  obtain ⟨j, hj, hq, he⟩ := claim_c3 [⟨0, 0, 0, 0⟩, ⟨1000, 2, 4, 6⟩] 1000 3600
    (by norm_num [SortedTimeline, List.pairwise_cons]) 1 (by norm_num) (by norm_num)
  rw [he]
  rfl

theorem claim_c4_witness :
    interpolate_gps [⟨100, 1, 2, 3⟩] 50 3600 = some ⟨1, 2, 3⟩ :=
  ((claim_c4 [⟨100, 1, 2, 3⟩] 50 3600
      (by norm_num [SortedTimeline, List.pairwise_cons]) (by norm_num)).1
    (by norm_num)).2 (by norm_num)

theorem claim_c7_witness :
    interp_bracket ⟨5, 1, 1, 1⟩ ⟨5, 9, 9, 9⟩ 7 3600 = some ⟨1, 1, 1⟩ ∧
    interpolate_gps_checked [⟨0, 0, 0, 0⟩, ⟨10, 1, 1, 1⟩] 3 100 =
      Except.ok (interpolate_gps [⟨0, 0, 0, 0⟩, ⟨10, 1, 1, 1⟩] 3 100) :=
  claim_c7 ⟨5, 1, 1, 1⟩ ⟨5, 9, 9, 9⟩ 7 3600 [⟨0, 0, 0, 0⟩, ⟨10, 1, 1, 1⟩] 3 100
    rfl (by norm_num) (by norm_num [SortedTimeline, List.pairwise_cons])

theorem claim_c10_witness :
    interpolate_gps [⟨0, 0, 0, 0⟩, ⟨5, 1, 1, 1⟩, ⟨5, 2, 2, 2⟩, ⟨9, 3, 3, 3⟩] 5 3600 =
      some ⟨1, 1, 1⟩ :=
  claim_c10 [⟨0, 0, 0, 0⟩, ⟨5, 1, 1, 1⟩, ⟨5, 2, 2, 2⟩, ⟨9, 3, 3, 3⟩] 5 3600
    (by norm_num [SortedTimeline, List.pairwise_cons]) 1 (by norm_num) (by norm_num)
    ⟨by norm_num, by norm_num⟩
    (by
      intro i hi
      have h0 : i = 0 := by omega
      subst h0
      norm_num)


/-! ### Track Loader claim -/

theorem timeLE_trans : ∀ a b c : TrackPoint, timeLE a b → timeLE b c → timeLE a c := by
  intro a b c hab hbc
  simp only [timeLE, decide_eq_true_eq] at hab hbc ⊢
  exact le_trans hab hbc

theorem timeLE_total : ∀ a b : TrackPoint, timeLE a b || timeLE b a := by
  intro a b
  simp only [timeLE, Bool.or_eq_true, decide_eq_true_eq]
  exact le_total a.time b.time

/-- Claim C5: for every input file collection, in any order, the Track
Loader output is non-decreasing in timestamp, and the points sharing any
given timestamp appear in the output in exactly their first-found
(collection) order. -/
theorem claim_c5 (gpx_files : List (String × Option GpxFile)) :
    SortedTimeline (parse_gpx_files gpx_files) ∧
    ∀ t : ℚ, (parse_gpx_files gpx_files).filter (fun p => p.time = t) =
      (collect_trackpoints gpx_files).filter (fun p => p.time = t) := by
  constructor
  · have h := List.sorted_mergeSort timeLE_trans timeLE_total (collect_trackpoints gpx_files)
    refine h.imp ?_
    intro a b hab
    simpa [timeLE] using hab
  · intro t
    have hsub : List.Sublist ((collect_trackpoints gpx_files).filter (fun p => p.time = t))
        (collect_trackpoints gpx_files) := List.filter_sublist _
    have hmem : ∀ p ∈ (collect_trackpoints gpx_files).filter (fun p => p.time = t),
        p.time = t := by
      intro p hp
      simpa using (List.mem_filter.mp hp).2
    have hcp : ((collect_trackpoints gpx_files).filter (fun p => p.time = t)).Pairwise
        (fun a b => timeLE a b) := by
      refine List.pairwise_of_forall_mem_list ?_
      intro a ha b hb
      simp [timeLE, hmem a ha, hmem b hb]
    have hcs : List.Sublist ((collect_trackpoints gpx_files).filter (fun p => p.time = t))
        (parse_gpx_files gpx_files) :=
      List.sublist_mergeSort timeLE_trans timeLE_total hcp hsub
    have hff : ((collect_trackpoints gpx_files).filter (fun p => p.time = t)).filter
        (fun p => p.time = t) = (collect_trackpoints gpx_files).filter (fun p => p.time = t) :=
      List.filter_eq_self.mpr (fun a ha => by simpa using hmem a ha)
    have hsubf : List.Sublist ((collect_trackpoints gpx_files).filter (fun p => p.time = t))
        ((parse_gpx_files gpx_files).filter (fun p => p.time = t)) := by
      have h2 := hcs.filter (fun p => decide (p.time = t))
      rwa [hff] at h2
    have hperm : List.Perm ((parse_gpx_files gpx_files).filter (fun p => p.time = t))
        ((collect_trackpoints gpx_files).filter (fun p => p.time = t)) :=
      (List.mergeSort_perm (collect_trackpoints gpx_files) timeLE).filter _
    exact (hsubf.eq_of_length hperm.length_eq.symm).symm

/-! ### Matching Orchestrator claim -/

theorem classify_photo_gps (tps : List TrackPoint) (g : ℚ) (photo : PhotoMeta)
    (h : photo.has_gps = true) :
    classify_photo tps g photo = ⟨PhotoStatus.has_gps, none⟩ := by
  simp [classify_photo, h]

theorem classify_photo_no_time (tps : List TrackPoint) (g : ℚ) (photo : PhotoMeta)
    (h : photo.has_gps = false) (ht : photo.time = none) :
    classify_photo tps g photo = ⟨PhotoStatus.no_time, none⟩ := by
  simp [classify_photo, h, ht]

theorem classify_photo_interp (tps : List TrackPoint) (g : ℚ) (photo : PhotoMeta)
    (t : ℚ) (h : photo.has_gps = false) (ht : photo.time = some t) :
    classify_photo tps g photo =
      (match interpolate_gps tps t g with
        | some gps => ⟨PhotoStatus.matched, some gps⟩
        | none => ⟨PhotoStatus.no_match, none⟩) := by
  simp [classify_photo, h, ht]

theorem classify_photo_matched_iff (tps : List TrackPoint) (g : ℚ) (photo : PhotoMeta) :
    (classify_photo tps g photo).matched.isSome = true ↔
      (classify_photo tps g photo).status = PhotoStatus.matched := by
  by_cases hg : photo.has_gps = true
  · simp [classify_photo, hg]
  · cases ht : photo.time with
    | none => simp [classify_photo, hg, ht]
    | some t =>
      cases hint : interpolate_gps tps t g with
      | none => simp [classify_photo, hg, ht, hint]
      | some gps => simp [classify_photo, hg, ht, hint]

/-- Claim C6: each photo of a batch is classified by the decision chain
has-GPS, then no-timestamp, then matched/no-match from the Interpolation
Engine (whose timeline argument is irrelevant for a photo that already
has GPS), and the result carries a position exactly when the outcome is
matched. -/
theorem claim_c6 (tps tps2 : List TrackPoint) (g : ℚ) (photos : List PhotoMeta)
    (i : Nat) (hi : i < photos.length) :
    ((async_scan_photos tps g photos).getD i psdfl =
      classify_photo tps g (photos.getD i pmdfl)) ∧
    ((photos.getD i pmdfl).has_gps = true →
      classify_photo tps g (photos.getD i pmdfl) = ⟨PhotoStatus.has_gps, none⟩ ∧
      classify_photo tps g (photos.getD i pmdfl) = classify_photo tps2 g (photos.getD i pmdfl)) ∧
    ((photos.getD i pmdfl).has_gps = false → (photos.getD i pmdfl).time = none →
      classify_photo tps g (photos.getD i pmdfl) = ⟨PhotoStatus.no_time, none⟩) ∧
    (∀ t : ℚ, (photos.getD i pmdfl).has_gps = false → (photos.getD i pmdfl).time = some t →
      (∀ gps, interpolate_gps tps t g = some gps →
        classify_photo tps g (photos.getD i pmdfl) = ⟨PhotoStatus.matched, some gps⟩) ∧
      (interpolate_gps tps t g = none →
        classify_photo tps g (photos.getD i pmdfl) = ⟨PhotoStatus.no_match, none⟩)) ∧
    ((classify_photo tps g (photos.getD i pmdfl)).matched.isSome = true ↔
      (classify_photo tps g (photos.getD i pmdfl)).status = PhotoStatus.matched) := by
  refine ⟨?_, ?_, ?_, ?_, classify_photo_matched_iff tps g _⟩
  · simp [async_scan_photos, List.getD_eq_getElem?_getD, List.getElem?_map,
      List.getElem?_eq_getElem, hi]
  · intro h
    rw [classify_photo_gps tps g _ h, classify_photo_gps tps2 g _ h]
    exact ⟨rfl, rfl⟩
  · intro h hnone
    exact classify_photo_no_time tps g _ h hnone
  · intro t hgps htime
    constructor
    · intro gps hsome
      rw [classify_photo_interp tps g _ t hgps htime, hsome]
    · intro hnone
      rw [classify_photo_interp tps g _ t hgps htime, hnone]

theorem claim_c6_witness :
    classify_photo [] 3600 (([⟨"a.jpg", true, none⟩] : List PhotoMeta).getD 0 pmdfl) =
      ⟨PhotoStatus.has_gps, none⟩ :=
  ((claim_c6 [] [⟨9, 9, 9, 9⟩] 3600 [⟨"a.jpg", true, none⟩] 0 (by decide)).2.1 rfl).1

/-! ### GeoJSON export claim -/

theorem seg_filterMap_eq (segs : List GpxSegment) (nm : String) :
    (segs.filterMap fun seg =>
      if segCoords seg = [] then none
      else some (⟨nm, segCoords seg⟩ : GeoFeature)) =
    ((segs.filter fun seg => seg.points ≠ []).map fun seg => ⟨nm, segCoords seg⟩) := by
  induction segs with
  | nil => rfl
  | cons s rest ih =>
    by_cases h : s.points = []
    · have hc : segCoords s = [] := by simp [segCoords, h]
      simp [List.filterMap_cons, List.filter_cons, h, hc, ih]
    · have hc : ¬ segCoords s = [] := by simp [segCoords, h]
      simp [List.filterMap_cons, List.filter_cons, h, hc, ih]

theorem tracks_features_eq (tracks : List GpxTrack) (nm : String) :
    (tracks.flatMap fun track =>
      track.segments.filterMap fun seg =>
        if segCoords seg = [] then none
        else some (⟨pyNameOr track.name nm, segCoords seg⟩ : GeoFeature)) =
    (tracks.flatMap fun track =>
      ((track.segments.filter fun seg => seg.points ≠ []).map
        fun seg => ⟨pyNameOr track.name nm, segCoords seg⟩)) := by
  induction tracks with
  | nil => rfl
  | cons track rest ih =>
    simp only [List.flatMap_cons, ih]
    congr 1
    exact seg_filterMap_eq track.segments (pyNameOr track.name nm)

/-- Claim C9, counterexample: a parseable file containing one track with
one empty segment yields no feature, while the claim as stated demands
one feature per segment. -/
theorem claim_c9_counterexample :
    get_gpx_track_geojson [("a.gpx", some ⟨[⟨none, [⟨[]⟩]⟩], []⟩)] ≠
      get_gpx_track_geojson_claim [("a.gpx", some ⟨[⟨none, [⟨[]⟩]⟩], []⟩)] := by
  simp [get_gpx_track_geojson, get_gpx_track_geojson_claim, segCoords, pyNameOr]

/-- Claim C9, amended: the export is a FeatureCollection with one
LineString feature per non-empty track segment of every parseable file,
coordinates as (longitude, latitude) pairs in segment order, and the
name from the track's declared name with the filename as fallback. -/
theorem claim_c9_amended (gpx_files : List (String × Option GpxFile)) :
    get_gpx_track_geojson gpx_files =
      ⟨gpx_files.flatMap fun file =>
        match file.2 with
        | none => []
        | some gpx =>
          gpx.tracks.flatMap fun track =>
            ((track.segments.filter fun seg => seg.points ≠ []).map
              fun seg => ⟨pyNameOr track.name file.1, segCoords seg⟩)⟩ := by
  unfold get_gpx_track_geojson
  congr 1
  induction gpx_files with
  | nil => rfl
  | cons file rest ih =>
    simp only [List.flatMap_cons, ih]
    congr 1
    obtain ⟨nm, fparsed⟩ := file
    cases fparsed with
    | none => rfl
    | some gpx => exact tracks_features_eq gpx.tracks nm

/-! ### Timestamp Normalizer claim -/

example : _parse_exiftool_datetime ⟨some "2020:01:02 03:04:05", none, none, none⟩ 0 =
    some 1577934245 := by decide
example : _parse_exiftool_datetime ⟨some "2020:01:02 03:04:05", none, some "+09:00", none⟩ 0 =
    some (1577934245 - 9 * 3600) := by decide
example : _parse_exiftool_datetime ⟨some "2020-01-02 03:04:05", none, none, none⟩ 60 =
    some (1577934245 - 3600) := by decide
example : _parse_exiftool_datetime ⟨some "2020:01:02 03:04:05+09:00", none, none, none⟩ 0 =
    some (1577934245 - 9 * 3600) := by decide
example : _parse_exiftool_datetime ⟨some "2020:01:02 03:04:05.123", none, none, none⟩ 0 =
    some 1577934245 := by decide

/-- Claim C8: the normalizer returns an absent instant (and never a
fault) when the timestamp string is absent or empty, equals the all-zero
sentinel, or matches none of the recognized patterns (the three strptime
patterns of line 154 and the fractional-seconds fallback of line 163). -/
theorem claim_c8 (info : ExifInfo) (localOff : ℤ) :
    (pyOrStr info.dateTimeOriginal info.createDate = none →
      _parse_exiftool_datetime info localOff = none) ∧
    (pyOrStr info.dateTimeOriginal info.createDate = some "" →
      _parse_exiftool_datetime info localOff = none) ∧
    (pyOrStr info.dateTimeOriginal info.createDate = some "0000:00:00 00:00:00" →
      _parse_exiftool_datetime info localOff = none) ∧
    (∀ s : String, pyOrStr info.dateTimeOriginal info.createDate = some s →
      strptime_ymd_hms ':' (stripChars s.toList) = none →
      strptime_ymd_hms '-' (stripChars s.toList) = none →
      strptime_ymd_hms_z ':' (stripChars s.toList) = none →
      strptime_ymd_hms ':' ((splitOnChar '.' (stripChars s.toList)).headD []) = none →
      _parse_exiftool_datetime info localOff = none) := by
  refine ⟨?_, ?_, ?_, ?_⟩
  · intro h
    simp [_parse_exiftool_datetime, h]
  · intro h
    simp [_parse_exiftool_datetime, h]
  · intro h
    simp [_parse_exiftool_datetime, h]
  · intro s h h1 h2 h3 h4
    by_cases hs : s = "" ∨ s = "0000:00:00 00:00:00"
    · simp [_parse_exiftool_datetime, h, hs]
    · simp only [String.toList, List.headD_eq_head?_getD] at h1 h2 h3 h4
      simp [_parse_exiftool_datetime, h, hs, h1, h2, h3, h4]

theorem claim_c8_witness :
    _parse_exiftool_datetime ⟨some "not a date", none, none, none⟩ 540 = none :=
  (claim_c8 ⟨some "not a date", none, none, none⟩ 540).2.2.2 "not a date" rfl rfl rfl rfl rfl

theorem claim_c5_witness :
    SortedTimeline (parse_gpx_files
      [("b.gpx", some ⟨[⟨some "trk", [⟨[⟨some 5, 1, 2, none⟩, ⟨some 3, 4, 5, some 6⟩]⟩]⟩],
          [⟨some 4, 7, 8, none⟩]⟩),
       ("c.gpx", none)]) :=
  (claim_c5
    [("b.gpx", some ⟨[⟨some "trk", [⟨[⟨some 5, 1, 2, none⟩, ⟨some 3, 4, 5, some 6⟩]⟩]⟩],
        [⟨some 4, 7, 8, none⟩]⟩),
     ("c.gpx", none)]).1

theorem claim_c9_amended_witness :
    (get_gpx_track_geojson
      [("a.gpx", some ⟨[⟨none, [⟨[]⟩, ⟨[⟨none, 1, 2, none⟩]⟩]⟩], []⟩)]).features.length = 1 := by
  rw [claim_c9_amended]
  rfl
